import Mathlib

/-!
Shallow embedding of the img-processing/node-sdk TypeScript client
(src/api-client.ts, src/image-object.ts, src/api-error.ts,
src/paginated-images.ts — the current revision of each file), together with
theorems settling the specification claims about it.

Modelling conventions:
* JSON values are modelled by the inductive `Json`; JSON numbers are
  modelled as integers (no claim under verification depends on fractional
  numeric values).
* A TypeScript `Promise` that can reject is modelled by an explicit result
  type: `ReqResult T` is either a resolved value or a thrown exception.
* The HTTP transport (the `ky` instance) is external to the SDK.  Each SDK
  method performs exactly one transport call; the outcome of that call is
  passed to the Lean function as an explicit `TransportOutcome` argument.
  `TransportOutcome.success v` models the call resolving and its body
  parsing as the expected type `T` (TypeScript casts the parsed JSON to `T`
  without any runtime check, so the environment hands over a `T` directly);
  `TransportOutcome.httpError b` models `ky` throwing an `HTTPError` for a
  non-2xx status, with `b` the result of parsing the error response body;
  `TransportOutcome.otherError m` models any other rejection (network
  failure, timeout, a 2xx body that fails to parse as JSON — that parse
  happens inside the `try` block, so its failure lands in the same
  `catch` arm as transport failures).
* `console.error` emissions are collected in a `log : List String` field.
-/

/-- JSON values (numbers modelled as integers). -/
inductive Json where
  | null : Json
  | bool (b : Bool) : Json
  | num (n : Int) : Json
  | str (s : String) : Json
  | arr (xs : List Json) : Json
  | obj (fields : List (String × Json)) : Json

/-- Property lookup on a JSON value, as JavaScript destructuring reads it:
a present key of an object yields its value, anything else yields
`undefined` (modelled `none`). -/
def lookupField : List (String × Json) → String → Option Json
  | [], _ => none
  | (k', v) :: rest, k => if k' = k then some v else lookupField rest k

def getProp (j : Json) (k : String) : Option Json :=
  match j with
  | .obj fields => lookupField fields k
  | _ => none

/-- The Error body shape of the API
(`IMGProcessingClient.Error` in src/api-client.ts):
`\x7b type: string, error: string, status: number, message?: string,
errors?: string[] \x7d`. -/
structure ErrorModel where
  type : String
  error : String
  status : Int
  message : Option String
  errors : Option (List String)
deriving DecidableEq

/-- Interprets a list of JSON values as a list of strings, failing if any
element is not a string. -/
def allStrings : List Json → Option (List String)
  | [] => some []
  | .str s :: rest => (allStrings rest).map (s :: ·)
  | _ :: _ => none

/-- Decodes a JSON value against the Error shape: a JSON object whose
`type` and `error` are strings, whose `status` is a number, whose
`message` is absent or a string and whose `errors` is absent or an array
of strings. -/
def decodeErrorBody (j : Json) : Option ErrorModel :=
  match getProp j "type", getProp j "error", getProp j "status" with
  | some (.str t), some (.str e), some (.num s) =>
    match getProp j "message", getProp j "errors" with
    | none, none => some ⟨t, e, s, none, none⟩
    | none, some (.arr xs) => (allStrings xs).map (⟨t, e, s, none, some ·⟩)
    | some (.str m), none => some ⟨t, e, s, some m, none⟩
    | some (.str m), some (.arr xs) =>
      (allStrings xs).map (⟨t, e, s, some m, some ·⟩)
    | _, _ => none
  | _, _, _ => none

/-- The `IMGProcessingAPIError` class (src/api-error.ts).  A plain class —
it does NOT extend the native `Error` class — whose constructor
destructures `type`, `error`, `status`, `message` and `errors` from its
argument and stores them; these five are its only fields.  Destructuring
an arbitrary JSON value performs no shape check, so each field holds the
JSON found at that key, or `undefined` (`none`). -/
structure IMGProcessingAPIError where
  type : Option Json
  error : Option Json
  status : Option Json
  message : Option Json
  errors : Option Json

/-- `new IMGProcessingAPIError(await error.response.json())`: builds the
error object from the parsed error body by property destructuring. -/
def IMGProcessingAPIError.ofJson (j : Json) : IMGProcessingAPIError :=
  { type := getProp j "type"
    error := getProp j "error"
    status := getProp j "status"
    message := getProp j "message"
    errors := getProp j "errors" }

/-- A thrown exception escaping an SDK method. -/
inductive Thrown where
  /-- `throw new IMGProcessingAPIError(...)` — an instance of the plain
  `IMGProcessingAPIError` class. -/
  | apiError (e : IMGProcessingAPIError) : Thrown
  /-- `throw new Error("An unexpected error occurred. ...")` — the generic
  wrapper, an instance of the native `Error` class. -/
  | genericError : Thrown
  /-- The rejection of `error.response.json()` inside the `catch` block
  when the error body is not valid JSON: the native `SyntaxError`
  propagates unhandled. -/
  | jsonParseError : Thrown

/-- `instanceof Error`, read off the class declarations:
`IMGProcessingAPIError` is declared without `extends`, so it is not an
`Error`; the generic wrapper is `new Error(...)`; a JSON `SyntaxError`
extends the native `Error`. -/
def instanceofNativeError : Thrown → Bool
  | .apiError _ => false
  | .genericError => true
  | .jsonParseError => true

/-- Result of an SDK method: resolves with a value or throws. -/
inductive ReqResult (T : Type) where
  | ok (v : T) : ReqResult T
  | thrown (e : Thrown) : ReqResult T

/-- Result of parsing an HTTP error response body as JSON. -/
inductive BodyParse where
  | parsed (j : Json) : BodyParse
  | unparsable : BodyParse

/-- Outcome of the single transport call performed by an SDK method (see
the module docstring). -/
inductive TransportOutcome (T : Type) where
  | success (v : T) : TransportOutcome T
  | httpError (body : BodyParse) : TransportOutcome T
  | otherError (msg : String) : TransportOutcome T

/-- Result of a method together with what it wrote to the operational log
(`console.error`). -/
structure ReqOutput (T : Type) where
  result : ReqResult T
  log : List String

/-- The client that `IMGProcessingClient`'s constructor builds: a `ky`
instance configured with the base address and the API-key header.
Observable state is the API key. -/
structure IMGProcessingClient where
  apiKey : String
deriving DecidableEq

/-- The generic dispatch helper `IMGProcessingClient.request`
(src/api-client.ts):

```
try \x7b
  const response = await call();
  return await response.json();
\x7d catch (error) \x7b
  if (error instanceof HTTPError) \x7b
    throw new IMGProcessingAPIError(await error.response.json());
  \x7d
  console.error(error);
  throw new Error("An unexpected error occurred. ...");
\x7d
```

On success it returns the parsed body.  On `HTTPError` it parses the error
body and throws an `IMGProcessingAPIError` built from it; if that body is
not valid JSON, the parse rejection itself escapes the `catch` block,
neither logged nor wrapped.  Any other failure is logged once via
`console.error` and rethrown as the generic `Error`. -/
def IMGProcessingClient.request {T : Type} (o : TransportOutcome T) :
    ReqOutput T :=
  match o with
  | .success v => { result := .ok v, log := [] }
  | .httpError (.parsed j) =>
    { result := .thrown (.apiError (IMGProcessingAPIError.ofJson j)), log := [] }
  | .httpError .unparsable =>
    { result := .thrown .jsonParseError, log := [] }
  | .otherError msg =>
    { result := .thrown .genericError, log := [msg] }

/-- HTTP method of a request built by the SDK. -/
inductive Method where
  | get : Method
  | post : Method
  | delete : Method
deriving DecidableEq

/-- The one HTTP request an SDK method hands to the transport: method,
path relative to the configured base address, query parameters
(`searchParams`), and the JSON body, when any.  Multipart upload bodies
are outside the scope of the verified claims. -/
structure HttpRequest where
  method : Method
  path : String
  query : List (String × Option String)
  body : Option Json

/-- A completed SDK method call: the request it issued, the result it
resolved or threw, and what it logged. -/
structure MethodCall (T : Type) where
  request : HttpRequest
  result : ReqResult T
  log : List String

def mkCall {T : Type} (req : HttpRequest) (ro : ReqOutput T) : MethodCall T :=
  { request := req, result := ro.result, log := ro.log }

/-- `ImageObject.SupportedFormat` (src/image-object.ts):
`"jpeg" | "png" | "webp"`. -/
inductive ImageObject.SupportedFormat where
  | jpeg : ImageObject.SupportedFormat
  | png : ImageObject.SupportedFormat
  | webp : ImageObject.SupportedFormat
deriving DecidableEq

def ImageObject.SupportedFormat.toString : ImageObject.SupportedFormat → String
  | .jpeg => "jpeg"
  | .png => "png"
  | .webp => "webp"

/-- The `ImageObject.Image` response shape (src/image-object.ts): the raw
attribute record the server returns for one image.  `url` is nullable;
pixel dimensions and byte size are JSON numbers (modelled as integers). -/
structure ImageObject.Image where
  id : String
  name : String
  url : Option String
  width : Int
  height : Int
  format : ImageObject.SupportedFormat
  size : Int
  created_at : String
deriving DecidableEq

/-- The `ImageObject` class (src/image-object.ts): copies every attribute
of the response record, keeps `url` in the mutable `mutableUrl` slot, and
holds a non-owning reference to the client that decoded it. -/
structure ImageObject where
  id : String
  name : String
  mutableUrl : Option String
  width : Int
  height : Int
  format : ImageObject.SupportedFormat
  size : Int
  created_at : String
  client : IMGProcessingClient
deriving DecidableEq

/-- `new ImageObject(\x7b image, client \x7d)`: the constructor copies the
attribute fields and stores the client reference. -/
def ImageObject.new (image : ImageObject.Image) (client : IMGProcessingClient) :
    ImageObject :=
  { id := image.id
    name := image.name
    mutableUrl := image.url
    width := image.width
    height := image.height
    format := image.format
    size := image.size
    created_at := image.created_at
    client := client }

/-- The `url` getter of `ImageObject` reads the mutable slot. -/
def ImageObject.url (h : ImageObject) : Option String := h.mutableUrl

/-- `IMGProcessingClient.imageRequest`: dispatch through `request`, then
wrap a successful response record into an `ImageObject` bound to `this`
client. -/
def IMGProcessingClient.imageRequest (c : IMGProcessingClient)
    (o : TransportOutcome ImageObject.Image) : ReqOutput ImageObject :=
  let ro := IMGProcessingClient.request o
  { result := match ro.result with
      | .ok img => .ok (ImageObject.new img c)
      | .thrown e => .thrown e
    log := ro.log }

/-- Outcome of running the `IMGProcessingClient` constructor: either the
configured client or the thrown configuration error, together with every
HTTP request issued during construction (`ky.create` only configures the
transport, so that list is empty on every path). -/
structure ClientInit where
  outcome : Except String IMGProcessingClient
  requests : List HttpRequest

/-- The configuration-error message thrown by the constructor for a key
with an unrecognized prefix (the source text additionally points at the
dashboard sign-up page). -/
def invalidApiKeyMessage : String :=
  "Invalid API key. Please provide a valid API key."

/-- `String.prototype.startsWith`, stated on the character lists (so that
it evaluates by reduction). -/
def strStartsWith (s pat : String) : Bool :=
  pat.data.isPrefixOf s.data

/-- The `IMGProcessingClient` constructor (src/api-client.ts): rejects any
key that starts with neither `test_` nor `live_` before configuring the
transport; otherwise it only configures the transport (base address and
`x-api-key` header) and issues no request. -/
def IMGProcessingClient.create (apiKey : String) : ClientInit :=
  if ¬ strStartsWith apiKey "test_" ∧ ¬ strStartsWith apiKey "live_" then
    { outcome := .error invalidApiKeyMessage, requests := [] }
  else
    { outcome := .ok { apiKey := apiKey }, requests := [] }

/-- `JSON.stringify` drops object entries whose value is `undefined`: an
optional parameter that the caller did not provide contributes no key to
the serialized body. -/
def optFields (l : List (String × Option Json)) : List (String × Json) :=
  l.filterMap (fun kv => kv.2.map (fun v => (kv.1, v)))

def jsonBody (l : List (String × Option Json)) : Option Json :=
  some (Json.obj (optFields l))

def optStr (s : Option String) : Option Json := s.map Json.str

def optNum (n : Option Int) : Option Json := n.map Json.num

/-- `resize`'s `fit` parameter: `"fill" | "contain" | "cover"`. -/
inductive ResizeFit where
  | fill : ResizeFit
  | contain : ResizeFit
  | cover : ResizeFit
deriving DecidableEq

def ResizeFit.toString : ResizeFit → String
  | .fill => "fill"
  | .contain => "contain"
  | .cover => "cover"

/-- `resize`'s `position` parameter. -/
inductive ResizePosition where
  | center | top | right | bottom | left
  | topLeft | topRight | bottomLeft | bottomRight
deriving DecidableEq

def ResizePosition.toString : ResizePosition → String
  | .center => "center"
  | .top => "top"
  | .right => "right"
  | .bottom => "bottom"
  | .left => "left"
  | .topLeft => "top-left"
  | .topRight => "top-right"
  | .bottomLeft => "bottom-left"
  | .bottomRight => "bottom-right"

/-- `IMGProcessingClient.mirror.Mode`: `"horizontal" | "vertical" | "both"`. -/
inductive MirrorMode where
  | horizontal : MirrorMode
  | vertical : MirrorMode
  | both : MirrorMode
deriving DecidableEq

def MirrorMode.toString : MirrorMode → String
  | .horizontal => "horizontal"
  | .vertical => "vertical"
  | .both => "both"

/-- `rotate`'s `unit` parameter: `"degrees" | "radians"`. -/
inductive RotateUnit where
  | degrees : RotateUnit
  | radians : RotateUnit
deriving DecidableEq

def RotateUnit.toString : RotateUnit → String
  | .degrees => "degrees"
  | .radians => "radians"

/-- `IMGProcessingClient.download.Params`. -/
structure IMGProcessingClient.download.Params where
  image_id : String

/-- Binary payload of a download response. -/
structure Blob where
  bytes : List Nat
deriving DecidableEq

/-- `IMGProcessingClient.download` (src/api-client.ts): issues
`GET v1/images/\x7bimage_id\x7d/download` and returns the binary body.  Its
`try`/`catch` duplicates the classification of the `request` helper:
`HTTPError` → `IMGProcessingAPIError` from the parsed error body (the
parse rejection escaping when that body is not JSON), anything else →
logged once, then the generic `Error`. -/
def IMGProcessingClient.download (_c : IMGProcessingClient)
    (p : IMGProcessingClient.download.Params) (o : TransportOutcome Blob) :
    MethodCall Blob :=
  mkCall
    { method := .get, path := "v1/images/" ++ p.image_id ++ "/download",
      query := [], body := none }
    (match o with
      | .success v => { result := .ok v, log := [] }
      | .httpError (.parsed j) =>
        { result := .thrown (.apiError (IMGProcessingAPIError.ofJson j)),
          log := [] }
      | .httpError .unparsable =>
        { result := .thrown .jsonParseError, log := [] }
      | .otherError msg =>
        { result := .thrown .genericError, log := [msg] })

/-- `PaginatedImages.PaginatedImage` (src/paginated-images.ts): the raw
page payload — the list of raw image records plus the two nullable link
URLs. -/
structure PaginatedImages.Links where
  previous : Option String
  next : Option String
deriving DecidableEq

structure PaginatedImages.PaginatedImage where
  data : List ImageObject.Image
  links : PaginatedImages.Links
deriving DecidableEq

/-- The `PaginatedImages` class (src/paginated-images.ts): its constructor
stores the `data` array and `links` exactly as received, plus the client
used for page navigation.  The elements of `data` are the raw
`ImageObject.Image` records of the response (the declared element type in
the source), not client-bound `ImageObject` handles. -/
structure PaginatedImages where
  data : List ImageObject.Image
  links : PaginatedImages.Links
  client : IMGProcessingClient
deriving DecidableEq

/-- `new PaginatedImages(\x7b ...response, apiClient \x7d)`. -/
def PaginatedImages.new (page : PaginatedImages.PaginatedImage)
    (apiClient : IMGProcessingClient) : PaginatedImages :=
  { data := page.data, links := page.links, client := apiClient }

/-- Removes the first occurrence of `pat` from `s` — the semantics of
JavaScript `s.replace(pat, "")` for a string pattern. -/
def removeFirstOcc : List Char → List Char → List Char
  | [], _ => []
  | c :: rest, pat =>
    if pat.isPrefixOf (c :: rest) then (c :: rest).drop pat.length
    else c :: removeFirstOcc rest pat

def jsReplaceFirst (s pat : String) : String :=
  ⟨removeFirstOcc s.data pat.data⟩

/-- `IMGProcessingClient.goToPage.Params`. -/
structure IMGProcessingClient.goToPage.Params where
  page : String

/-- `IMGProcessingClient.goToPage` (src/api-client.ts): strips the known
host prefix `https://api.img-processing.com/` from the captured absolute
link (JavaScript `String.replace` removes the first occurrence), issues a
GET against the resulting relative path through the `request` helper, and
wraps the response page into a brand-new `PaginatedImages` bound to `this`
client. -/
def IMGProcessingClient.goToPage (c : IMGProcessingClient)
    (p : IMGProcessingClient.goToPage.Params)
    (o : TransportOutcome PaginatedImages.PaginatedImage) :
    MethodCall PaginatedImages :=
  let ro := IMGProcessingClient.request o
  mkCall
    { method := .get,
      path := jsReplaceFirst p.page "https://api.img-processing.com/",
      query := [], body := none }
    { result := match ro.result with
        | .ok page => .ok (PaginatedImages.new page c)
        | .thrown e => .thrown e
      log := ro.log }

/-- `IMGProcessingClient.listImages.Params` (`from` is a Lean keyword, so
the source field `from` is rendered `from_`). -/
structure IMGProcessingClient.listImages.Params where
  take : Option Nat
  from_ : Option String

/-- `IMGProcessingClient.listImages` (src/api-client.ts): issues
`GET v1/images` with `take`/`from` as query parameters through the
`request` helper and wraps the response page into a new `PaginatedImages`
bound to `this` client. -/
def IMGProcessingClient.listImages (c : IMGProcessingClient)
    (p : IMGProcessingClient.listImages.Params)
    (o : TransportOutcome PaginatedImages.PaginatedImage) :
    MethodCall PaginatedImages :=
  let ro := IMGProcessingClient.request o
  mkCall
    { method := .get, path := "v1/images",
      query := [("take", p.take.map (fun n => Nat.repr n)), ("from", p.from_)],
      body := none }
    { result := match ro.result with
        | .ok page => .ok (PaginatedImages.new page c)
        | .thrown e => .thrown e
      log := ro.log }

/-- `PaginatedImages.next`/`previous` resolve to `undefined` without
issuing any request when the corresponding link is falsy, and otherwise
return the delegated `goToPage` call. -/
inductive NavResult where
  | noPage : NavResult
  | page (call : MethodCall PaginatedImages) : NavResult

/-- `PaginatedImages.next` (src/paginated-images.ts):
`if (!this.links.next) return; return this.client.goToPage(\x7b page:
this.links.next \x7d)`.  JavaScript falsiness of a `string | null` value:
both `null` and the empty string are falsy.  The listing itself is not
modified. -/
def PaginatedImages.next (l : PaginatedImages)
    (o : TransportOutcome PaginatedImages.PaginatedImage) : NavResult :=
  match l.links.next with
  | none => .noPage
  | some s =>
    if s = "" then .noPage
    else .page (IMGProcessingClient.goToPage l.client { page := s } o)

/-- `PaginatedImages.previous` (src/paginated-images.ts): symmetric to
`next` on the `previous` link. -/
def PaginatedImages.previous (l : PaginatedImages)
    (o : TransportOutcome PaginatedImages.PaginatedImage) : NavResult :=
  match l.links.previous with
  | none => .noPage
  | some s =>
    if s = "" then .noPage
    else .page (IMGProcessingClient.goToPage l.client { page := s } o)

/-- `IMGProcessingClient.publish.Params`. -/
structure IMGProcessingClient.publish.Params where
  image_id : String

/-- `IMGProcessingClient.publish` (src/api-client.ts):
`POST v1/images/\x7bimage_id\x7d/publish` through `imageRequest`. -/
def IMGProcessingClient.publish (c : IMGProcessingClient)
    (p : IMGProcessingClient.publish.Params)
    (o : TransportOutcome ImageObject.Image) : MethodCall ImageObject :=
  mkCall
    { method := .post, path := "v1/images/" ++ p.image_id ++ "/publish",
      query := [], body := none }
    (IMGProcessingClient.imageRequest c o)

/-- `IMGProcessingClient.unpublish.Params`. -/
structure IMGProcessingClient.unpublish.Params where
  image_id : String

/-- `IMGProcessingClient.unpublish` (src/api-client.ts):
`POST v1/images/\x7bimage_id\x7d/unpublish` through `imageRequest`. -/
def IMGProcessingClient.unpublish (c : IMGProcessingClient)
    (p : IMGProcessingClient.unpublish.Params)
    (o : TransportOutcome ImageObject.Image) : MethodCall ImageObject :=
  mkCall
    { method := .post, path := "v1/images/" ++ p.image_id ++ "/unpublish",
      query := [], body := none }
    (IMGProcessingClient.imageRequest c o)

/-- `IMGProcessingClient.classify.Params`. -/
structure IMGProcessingClient.classify.Params where
  image_id : String

/-- `IMGProcessingClient.classify.Response`: main label with its score and
the ordered secondary label/score pairs.  Scores are probabilities;
modelled as rationals. -/
structure IMGProcessingClient.classify.Response where
  main_label : String
  main_score : ℚ
  secondary_labels : List (String × ℚ)
deriving DecidableEq

/-- `IMGProcessingClient.classify` (src/api-client.ts):
`POST v1/images/\x7bimage_id\x7d/classify` with an empty JSON body through the
`request` helper; returns the analysis payload unwrapped. -/
def IMGProcessingClient.classify (_c : IMGProcessingClient)
    (p : IMGProcessingClient.classify.Params)
    (o : TransportOutcome IMGProcessingClient.classify.Response) :
    MethodCall IMGProcessingClient.classify.Response :=
  mkCall
    { method := .post, path := "v1/images/" ++ p.image_id ++ "/classify",
      query := [], body := some (Json.obj []) }
    (IMGProcessingClient.request o)

/-- `IMGProcessingClient.deleteImage.Params`. -/
structure IMGProcessingClient.deleteImage.Params where
  image_id : String

/-- Modelled from the spec: the client's `deleteImage` operation is
missing from src/ (only its caller `ImageObject.delete` is present).  The
spec lists delete among the access operations — "delete (no return
value...)" — keyed by the image identifier, dispatched like every other
operation through the `request` helper and returning nothing. -/
def IMGProcessingClient.deleteImage (_c : IMGProcessingClient)
    (p : IMGProcessingClient.deleteImage.Params)
    (o : TransportOutcome Unit) : MethodCall Unit :=
  mkCall
    { method := .delete, path := "v1/images/" ++ p.image_id,
      query := [], body := none }
    (IMGProcessingClient.request o)

/-- `IMGProcessingClient.visualize.Params` (referenced from
src/image-object.ts; the declaration itself is part of the missing client
code): the target image id, the free-text prompt and the model selector. -/
structure IMGProcessingClient.visualize.Params where
  image_id : String
  prompt : String
  model : String

/-- `IMGProcessingClient.visualize.Response`: the free-text answer. -/
structure IMGProcessingClient.visualize.Response where
  answer : String
deriving DecidableEq

/-- Modelled from the spec: the client's `visualize` operation is missing
from src/ (only its forwarder `ImageObject.visualize` is present).  Per
the spec's analysis operations it "takes a free-text prompt and a model
selector, returns a free-text answer", following the uniform dispatch
shape: one POST keyed by the image identifier, through the `request`
helper. -/
def IMGProcessingClient.visualize (_c : IMGProcessingClient)
    (p : IMGProcessingClient.visualize.Params)
    (o : TransportOutcome IMGProcessingClient.visualize.Response) :
    MethodCall IMGProcessingClient.visualize.Response :=
  mkCall
    { method := .post, path := "v1/images/" ++ p.image_id ++ "/visualize",
      query := [],
      body := jsonBody
        [("prompt", some (.str p.prompt)), ("model", some (.str p.model))] }
    (IMGProcessingClient.request o)

/-- `IMGProcessingClient.blur.Params` (referenced from
src/image-object.ts; the declaration itself is part of the missing client
code): the target image id, the optional Gaussian `sigma`, and the
optional output name. -/
structure IMGProcessingClient.blur.Params where
  image_id : String
  sigma : Option Int
  name : Option String

/-- Modelled from the spec: the client's `blur` operation is missing from
src/ (only its forwarder `ImageObject.blur` is present).  The spec lists
blur among the editing operations mapping 1:1 to a remote endpoint keyed
by image identifier, with an optional output name, following the uniform
mutating-method shape: serialize the non-id parameters to a JSON body,
one POST, decode into an Image Handle bound to `this` client. -/
def IMGProcessingClient.blur (c : IMGProcessingClient)
    (p : IMGProcessingClient.blur.Params)
    (o : TransportOutcome ImageObject.Image) : MethodCall ImageObject :=
  mkCall
    { method := .post, path := "v1/images/" ++ p.image_id ++ "/blur",
      query := [],
      body := jsonBody [("sigma", optNum p.sigma), ("name", optStr p.name)] }
    (IMGProcessingClient.imageRequest c o)

/-- `IMGProcessingClient.modulate.Params`. -/
structure IMGProcessingClient.modulate.Params where
  image_id : String
  brightness : Option Int
  saturation : Option Int
  hue : Option Int
  lightness : Option Int
  name : Option String

/-- `IMGProcessingClient.modulate` (src/api-client.ts):
`POST v1/images/\x7bimage_id\x7d/modulate` with body
`\x7bbrightness, saturation, hue, lightness, name\x7d` through `imageRequest`. -/
def IMGProcessingClient.modulate (c : IMGProcessingClient)
    (p : IMGProcessingClient.modulate.Params)
    (o : TransportOutcome ImageObject.Image) : MethodCall ImageObject :=
  mkCall
    { method := .post, path := "v1/images/" ++ p.image_id ++ "/modulate",
      query := [],
      body := jsonBody
        [("brightness", optNum p.brightness),
         ("saturation", optNum p.saturation),
         ("hue", optNum p.hue),
         ("lightness", optNum p.lightness),
         ("name", optStr p.name)] }
    (IMGProcessingClient.imageRequest c o)

/-- `IMGProcessingClient.removeBackground.Params`. -/
structure IMGProcessingClient.removeBackground.Params where
  image_id : String
  name : Option String

/-- `IMGProcessingClient.removeBackground` (src/api-client.ts):
`POST v1/images/\x7bimage_id\x7d/remove-background` with body `\x7bname\x7d` through
`imageRequest`.  The TypeScript return type is narrowed to
`ImageObject<"png">` by a cast; at runtime the handle's `format` is
whatever the response record carries. -/
def IMGProcessingClient.removeBackground (c : IMGProcessingClient)
    (p : IMGProcessingClient.removeBackground.Params)
    (o : TransportOutcome ImageObject.Image) : MethodCall ImageObject :=
  mkCall
    { method := .post,
      path := "v1/images/" ++ p.image_id ++ "/remove-background",
      query := [], body := jsonBody [("name", optStr p.name)] }
    (IMGProcessingClient.imageRequest c o)

/-- One watermark placement of `IMGProcessingClient.watermark.Params`. -/
structure WatermarkItem where
  id : String
  left : Int
  top : Int

def WatermarkItem.toJson (w : WatermarkItem) : Json :=
  .obj [("id", .str w.id), ("left", .num w.left), ("top", .num w.top)]

/-- `IMGProcessingClient.watermark.Params`. -/
structure IMGProcessingClient.watermark.Params where
  image_id : String
  watermarks : List WatermarkItem
  name : Option String

/-- `IMGProcessingClient.watermark` (src/api-client.ts):
`POST v1/images/\x7bimage_id\x7d/watermark` with body `\x7bwatermarks, name\x7d`
through `imageRequest`. -/
def IMGProcessingClient.watermark (c : IMGProcessingClient)
    (p : IMGProcessingClient.watermark.Params)
    (o : TransportOutcome ImageObject.Image) : MethodCall ImageObject :=
  mkCall
    { method := .post, path := "v1/images/" ++ p.image_id ++ "/watermark",
      query := [],
      body := jsonBody
        [("watermarks", some (.arr (p.watermarks.map WatermarkItem.toJson))),
         ("name", optStr p.name)] }
    (IMGProcessingClient.imageRequest c o)

/-- `IMGProcessingClient.convert.Params`. -/
structure IMGProcessingClient.convert.Params where
  image_id : String
  format : ImageObject.SupportedFormat
  quality : Option Int
  name : Option String

/-- `IMGProcessingClient.convert` (src/api-client.ts):
`POST v1/images/\x7bimage_id\x7d/convert` with body `\x7bformat, quality, name\x7d`
through `imageRequest`.  The TypeScript return type is narrowed to
`ImageObject<Format>` by a cast; at runtime the handle's `format` is
whatever the response record carries. -/
def IMGProcessingClient.convert (c : IMGProcessingClient)
    (p : IMGProcessingClient.convert.Params)
    (o : TransportOutcome ImageObject.Image) : MethodCall ImageObject :=
  mkCall
    { method := .post, path := "v1/images/" ++ p.image_id ++ "/convert",
      query := [],
      body := jsonBody
        [("format", some (.str p.format.toString)),
         ("quality", optNum p.quality),
         ("name", optStr p.name)] }
    (IMGProcessingClient.imageRequest c o)

/-- `IMGProcessingClient.crop.Params`. -/
structure IMGProcessingClient.crop.Params where
  image_id : String
  x1 : Int
  y1 : Int
  x2 : Int
  y2 : Int
  name : Option String

/-- `IMGProcessingClient.crop` (src/api-client.ts):
`POST v1/images/\x7bimage_id\x7d/crop` with body `\x7bx1, y1, x2, y2, name\x7d`
through `imageRequest`. -/
def IMGProcessingClient.crop (c : IMGProcessingClient)
    (p : IMGProcessingClient.crop.Params)
    (o : TransportOutcome ImageObject.Image) : MethodCall ImageObject :=
  mkCall
    { method := .post, path := "v1/images/" ++ p.image_id ++ "/crop",
      query := [],
      body := jsonBody
        [("x1", some (.num p.x1)), ("y1", some (.num p.y1)),
         ("x2", some (.num p.x2)), ("y2", some (.num p.y2)),
         ("name", optStr p.name)] }
    (IMGProcessingClient.imageRequest c o)

/-- `IMGProcessingClient.mirror.Params`. -/
structure IMGProcessingClient.mirror.Params where
  image_id : String
  mode : MirrorMode
  name : Option String

/-- `IMGProcessingClient.mirror` (src/api-client.ts):
`POST v1/images/\x7bimage_id\x7d/mirror` with body `\x7bmode, name\x7d` through
`imageRequest`. -/
def IMGProcessingClient.mirror (c : IMGProcessingClient)
    (p : IMGProcessingClient.mirror.Params)
    (o : TransportOutcome ImageObject.Image) : MethodCall ImageObject :=
  mkCall
    { method := .post, path := "v1/images/" ++ p.image_id ++ "/mirror",
      query := [],
      body := jsonBody
        [("mode", some (.str p.mode.toString)), ("name", optStr p.name)] }
    (IMGProcessingClient.imageRequest c o)

/-- `IMGProcessingClient.resize.Params`.  The source declares
`letterbox_color` among the accepted fields. -/
structure IMGProcessingClient.resize.Params where
  image_id : String
  width : Int
  height : Int
  fit : Option ResizeFit
  letterbox_color : Option String
  position : Option ResizePosition
  name : Option String

/-- `IMGProcessingClient.resize` (src/api-client.ts):
`POST v1/images/\x7bimage_id\x7d/resize`.  The method destructures only
`\x7bimage_id, width, height, fit, name, position\x7d` from its parameters and
serializes body `\x7bwidth, height, fit, name, position\x7d`: the declared
`letterbox_color` field is never read and never serialized. -/
def IMGProcessingClient.resize (c : IMGProcessingClient)
    (p : IMGProcessingClient.resize.Params)
    (o : TransportOutcome ImageObject.Image) : MethodCall ImageObject :=
  mkCall
    { method := .post, path := "v1/images/" ++ p.image_id ++ "/resize",
      query := [],
      body := jsonBody
        [("width", some (.num p.width)),
         ("height", some (.num p.height)),
         ("fit", p.fit.map (fun f => .str f.toString)),
         ("name", optStr p.name),
         ("position", p.position.map (fun q => .str q.toString))] }
    (IMGProcessingClient.imageRequest c o)

/-- `IMGProcessingClient.rotate.Params`.  The source declares
`background_color` among the accepted fields. -/
structure IMGProcessingClient.rotate.Params where
  image_id : String
  angle : Int
  unit : Option RotateUnit
  background_color : Option String
  name : Option String

/-- `IMGProcessingClient.rotate` (src/api-client.ts):
`POST v1/images/\x7bimage_id\x7d/rotate`.  The method destructures only
`\x7bimage_id, angle, unit, name\x7d` from its parameters and serializes body
`\x7bangle, unit, name\x7d`: the declared `background_color` field is never
read and never serialized. -/
def IMGProcessingClient.rotate (c : IMGProcessingClient)
    (p : IMGProcessingClient.rotate.Params)
    (o : TransportOutcome ImageObject.Image) : MethodCall ImageObject :=
  mkCall
    { method := .post, path := "v1/images/" ++ p.image_id ++ "/rotate",
      query := [],
      body := jsonBody
        [("angle", some (.num p.angle)),
         ("unit", p.unit.map (fun u => .str u.toString)),
         ("name", optStr p.name)] }
    (IMGProcessingClient.imageRequest c o)

/-!
Instance methods of `ImageObject` (src/image-object.ts).  Each `Params`
type below is the source's `WithoutImageId<...>` of the corresponding
client `Params`; each method injects `this.id` as `image_id` and calls
the client operation.
-/

/-- `ImageObject.delete` (src/image-object.ts):
`await this.client.deleteImage(\x7b image_id: this.id \x7d)`, returning void. -/
def ImageObject.delete (h : ImageObject) (o : TransportOutcome Unit) :
    MethodCall Unit :=
  IMGProcessingClient.deleteImage h.client { image_id := h.id } o

/-- `ImageObject.download` (src/image-object.ts). -/
def ImageObject.download (h : ImageObject) (o : TransportOutcome Blob) :
    MethodCall Blob :=
  IMGProcessingClient.download h.client { image_id := h.id } o

/-- `ImageObject.publish` (src/image-object.ts):
`const result = await this.client.publish(\x7b image_id: this.id \x7d);
this.mutableUrl = result.url; return this;` — copies the published URL
onto the existing handle and returns that same handle, not the new
`ImageObject` the client produced. -/
def ImageObject.publish (h : ImageObject)
    (o : TransportOutcome ImageObject.Image) : MethodCall ImageObject :=
  let call := IMGProcessingClient.publish h.client { image_id := h.id } o
  { call with result := match call.result with
      | .ok result => .ok { h with mutableUrl := result.url }
      | .thrown e => .thrown e }

/-- `ImageObject.unpublish` (src/image-object.ts): symmetric to
`publish`. -/
def ImageObject.unpublish (h : ImageObject)
    (o : TransportOutcome ImageObject.Image) : MethodCall ImageObject :=
  let call := IMGProcessingClient.unpublish h.client { image_id := h.id } o
  { call with result := match call.result with
      | .ok result => .ok { h with mutableUrl := result.url }
      | .thrown e => .thrown e }

/-- `ImageObject.classify` (src/image-object.ts). -/
def ImageObject.classify (h : ImageObject)
    (o : TransportOutcome IMGProcessingClient.classify.Response) :
    MethodCall IMGProcessingClient.classify.Response :=
  IMGProcessingClient.classify h.client { image_id := h.id } o

/-- `ImageObject.visualize.Params`. -/
structure ImageObject.visualize.Params where
  prompt : String
  model : String

/-- `ImageObject.visualize` (src/image-object.ts). -/
def ImageObject.visualize (h : ImageObject) (p : ImageObject.visualize.Params)
    (o : TransportOutcome IMGProcessingClient.visualize.Response) :
    MethodCall IMGProcessingClient.visualize.Response :=
  IMGProcessingClient.visualize h.client
    { image_id := h.id, prompt := p.prompt, model := p.model } o

/-- `ImageObject.blur.Params`. -/
structure ImageObject.blur.Params where
  sigma : Option Int
  name : Option String

/-- `ImageObject.blur` (src/image-object.ts). -/
def ImageObject.blur (h : ImageObject) (p : ImageObject.blur.Params)
    (o : TransportOutcome ImageObject.Image) : MethodCall ImageObject :=
  IMGProcessingClient.blur h.client
    { image_id := h.id, sigma := p.sigma, name := p.name } o

/-- `ImageObject.modulate.Params`. -/
structure ImageObject.modulate.Params where
  brightness : Option Int
  saturation : Option Int
  hue : Option Int
  lightness : Option Int
  name : Option String

/-- `ImageObject.modulate` (src/image-object.ts). -/
def ImageObject.modulate (h : ImageObject) (p : ImageObject.modulate.Params)
    (o : TransportOutcome ImageObject.Image) : MethodCall ImageObject :=
  IMGProcessingClient.modulate h.client
    { image_id := h.id, brightness := p.brightness,
      saturation := p.saturation, hue := p.hue, lightness := p.lightness,
      name := p.name } o

/-- `ImageObject.removeBackground.Params`. -/
structure ImageObject.removeBackground.Params where
  name : Option String

/-- `ImageObject.removeBackground` (src/image-object.ts). -/
def ImageObject.removeBackground (h : ImageObject)
    (p : ImageObject.removeBackground.Params)
    (o : TransportOutcome ImageObject.Image) : MethodCall ImageObject :=
  IMGProcessingClient.removeBackground h.client
    { image_id := h.id, name := p.name } o

/-- `ImageObject.watermark.Params`. -/
structure ImageObject.watermark.Params where
  watermarks : List WatermarkItem
  name : Option String

/-- `ImageObject.watermark` (src/image-object.ts). -/
def ImageObject.watermark (h : ImageObject) (p : ImageObject.watermark.Params)
    (o : TransportOutcome ImageObject.Image) : MethodCall ImageObject :=
  IMGProcessingClient.watermark h.client
    { image_id := h.id, watermarks := p.watermarks, name := p.name } o

/-- `ImageObject.convert.Params`. -/
structure ImageObject.convert.Params where
  format : ImageObject.SupportedFormat
  quality : Option Int
  name : Option String

/-- `ImageObject.convert` (src/image-object.ts). -/
def ImageObject.convert (h : ImageObject) (p : ImageObject.convert.Params)
    (o : TransportOutcome ImageObject.Image) : MethodCall ImageObject :=
  IMGProcessingClient.convert h.client
    { image_id := h.id, format := p.format, quality := p.quality,
      name := p.name } o

/-- `ImageObject.crop.Params`. -/
structure ImageObject.crop.Params where
  x1 : Int
  y1 : Int
  x2 : Int
  y2 : Int
  name : Option String

/-- `ImageObject.crop` (src/image-object.ts). -/
def ImageObject.crop (h : ImageObject) (p : ImageObject.crop.Params)
    (o : TransportOutcome ImageObject.Image) : MethodCall ImageObject :=
  IMGProcessingClient.crop h.client
    { image_id := h.id, x1 := p.x1, y1 := p.y1, x2 := p.x2, y2 := p.y2,
      name := p.name } o

/-- `ImageObject.mirror.Params`. -/
structure ImageObject.mirror.Params where
  mode : MirrorMode
  name : Option String

/-- `ImageObject.mirror` (src/image-object.ts). -/
def ImageObject.mirror (h : ImageObject) (p : ImageObject.mirror.Params)
    (o : TransportOutcome ImageObject.Image) : MethodCall ImageObject :=
  IMGProcessingClient.mirror h.client
    { image_id := h.id, mode := p.mode, name := p.name } o

/-- `ImageObject.resize.Params`. -/
structure ImageObject.resize.Params where
  width : Int
  height : Int
  fit : Option ResizeFit
  letterbox_color : Option String
  position : Option ResizePosition
  name : Option String

/-- `ImageObject.resize` (src/image-object.ts):
`this.client.resize(\x7b image_id: this.id, ...options \x7d)`. -/
def ImageObject.resize (h : ImageObject) (p : ImageObject.resize.Params)
    (o : TransportOutcome ImageObject.Image) : MethodCall ImageObject :=
  IMGProcessingClient.resize h.client
    { image_id := h.id, width := p.width, height := p.height, fit := p.fit,
      letterbox_color := p.letterbox_color, position := p.position,
      name := p.name } o

/-- `ImageObject.rotate.Params`. -/
structure ImageObject.rotate.Params where
  angle : Int
  unit : Option RotateUnit
  background_color : Option String
  name : Option String

/-- `ImageObject.rotate` (src/image-object.ts): forwards `angle`, `unit`,
`name` and `background_color` with `image_id: this.id`. -/
def ImageObject.rotate (h : ImageObject) (p : ImageObject.rotate.Params)
    (o : TransportOutcome ImageObject.Image) : MethodCall ImageObject :=
  IMGProcessingClient.rotate h.client
    { image_id := h.id, angle := p.angle, unit := p.unit,
      background_color := p.background_color, name := p.name } o

/-!
Theorems settling the specification claims.
-/

/-- A successful `allStrings` decoding means the JSON list was exactly the
string wrappers of the decoded list. -/
theorem allStrings_eq {xs : List Json} {l : List String}
    (h : allStrings xs = some l) : xs = l.map Json.str := by
  induction xs generalizing l with
  | nil =>
    simp only [allStrings, Option.some.injEq] at h
    subst h; rfl
  | cons x rest ih =>
    cases x with
    | str s =>
      simp only [allStrings, Option.map_eq_some'] at h
      obtain ⟨l', hl', rfl⟩ := h
      simp [ih hl']
    | null => simp [allStrings] at h
    | bool b => simp [allStrings] at h
    | num n => simp [allStrings] at h
    | arr a => simp [allStrings] at h
    | obj f => simp [allStrings] at h

/-- C1: if the transport call fails with an HTTP error whose response
body is a JSON object of the Error shape, the `request` helper — and
hence every operation dispatched through it, `rotate` shown as the
representative `imageRequest`-based operation — fails by throwing an
`IMGProcessingAPIError` whose `type`, `error`, `status`, `message` and
`errors` fields equal the corresponding fields of that response body. -/
theorem C1_structured_error_surfaces_api_error (T : Type) (j : Json)
    (em : ErrorModel) (hd : decodeErrorBody j = some em) :
    (IMGProcessingClient.request (T := T) (.httpError (.parsed j))).result
      = .thrown (.apiError (IMGProcessingAPIError.ofJson j)) ∧
    (IMGProcessingAPIError.ofJson j).type = some (.str em.type) ∧
    (IMGProcessingAPIError.ofJson j).error = some (.str em.error) ∧
    (IMGProcessingAPIError.ofJson j).status = some (.num em.status) ∧
    (IMGProcessingAPIError.ofJson j).message = em.message.map Json.str ∧
    (IMGProcessingAPIError.ofJson j).errors
      = em.errors.map (fun l => Json.arr (l.map Json.str)) ∧
    ∀ (c : IMGProcessingClient) (p : IMGProcessingClient.rotate.Params),
      (IMGProcessingClient.rotate c p (.httpError (.parsed j))).result
        = .thrown (.apiError (IMGProcessingAPIError.ofJson j)) := by
  unfold decodeErrorBody at hd
  split at hd
  next t e s ht he hs =>
    split at hd
    next hm herr =>
      simp only [Option.some.injEq] at hd
      subst hd
      exact ⟨rfl, by simp [IMGProcessingAPIError.ofJson, ht],
        by simp [IMGProcessingAPIError.ofJson, he],
        by simp [IMGProcessingAPIError.ofJson, hs],
        by simp [IMGProcessingAPIError.ofJson, hm],
        by simp [IMGProcessingAPIError.ofJson, herr],
        fun c p => rfl⟩
    next xs hm herr =>
      simp only [Option.map_eq_some'] at hd
      obtain ⟨l, hl, hem⟩ := hd
      subst hem
      refine ⟨rfl, by simp [IMGProcessingAPIError.ofJson, ht],
        by simp [IMGProcessingAPIError.ofJson, he],
        by simp [IMGProcessingAPIError.ofJson, hs],
        by simp [IMGProcessingAPIError.ofJson, hm],
        ?_, fun c p => rfl⟩
      simp [IMGProcessingAPIError.ofJson, herr, allStrings_eq hl]
    next m hm herr =>
      simp only [Option.some.injEq] at hd
      subst hd
      exact ⟨rfl, by simp [IMGProcessingAPIError.ofJson, ht],
        by simp [IMGProcessingAPIError.ofJson, he],
        by simp [IMGProcessingAPIError.ofJson, hs],
        by simp [IMGProcessingAPIError.ofJson, hm],
        by simp [IMGProcessingAPIError.ofJson, herr],
        fun c p => rfl⟩
    next m xs hm herr =>
      simp only [Option.map_eq_some'] at hd
      obtain ⟨l, hl, hem⟩ := hd
      subst hem
      refine ⟨rfl, by simp [IMGProcessingAPIError.ofJson, ht],
        by simp [IMGProcessingAPIError.ofJson, he],
        by simp [IMGProcessingAPIError.ofJson, hs],
        by simp [IMGProcessingAPIError.ofJson, hm],
        ?_, fun c p => rfl⟩
      simp [IMGProcessingAPIError.ofJson, herr, allStrings_eq hl]
    next => exact absurd hd (by simp)
  next => exact absurd hd (by simp)

/-- C1 witness: a concrete 422 validation-error body of the Error shape
surfaces as an `IMGProcessingAPIError` with exactly those fields. -/
theorem C1_structured_error_surfaces_api_error_witness :
    (IMGProcessingClient.request (T := ImageObject.Image)
        (.httpError (.parsed (Json.obj
          [("type", .str "validation-error"), ("error", .str "Validation Error"),
           ("status", .num 422), ("errors", .arr [.str "name is required"])])))).result
      = .thrown (.apiError (IMGProcessingAPIError.ofJson (Json.obj
          [("type", .str "validation-error"), ("error", .str "Validation Error"),
           ("status", .num 422), ("errors", .arr [.str "name is required"])]))) ∧
    (IMGProcessingAPIError.ofJson (Json.obj
          [("type", .str "validation-error"), ("error", .str "Validation Error"),
           ("status", .num 422), ("errors", .arr [.str "name is required"])])).type
      = some (.str "validation-error") ∧
    (IMGProcessingAPIError.ofJson (Json.obj
          [("type", .str "validation-error"), ("error", .str "Validation Error"),
           ("status", .num 422), ("errors", .arr [.str "name is required"])])).error
      = some (.str "Validation Error") ∧
    (IMGProcessingAPIError.ofJson (Json.obj
          [("type", .str "validation-error"), ("error", .str "Validation Error"),
           ("status", .num 422), ("errors", .arr [.str "name is required"])])).status
      = some (.num 422) ∧
    (IMGProcessingAPIError.ofJson (Json.obj
          [("type", .str "validation-error"), ("error", .str "Validation Error"),
           ("status", .num 422), ("errors", .arr [.str "name is required"])])).message
      = Option.map Json.str none ∧
    (IMGProcessingAPIError.ofJson (Json.obj
          [("type", .str "validation-error"), ("error", .str "Validation Error"),
           ("status", .num 422), ("errors", .arr [.str "name is required"])])).errors
      = Option.map (fun l => Json.arr (l.map Json.str)) (some ["name is required"]) ∧
    ∀ (c : IMGProcessingClient) (p : IMGProcessingClient.rotate.Params),
      (IMGProcessingClient.rotate c p (.httpError (.parsed (Json.obj
          [("type", .str "validation-error"), ("error", .str "Validation Error"),
           ("status", .num 422), ("errors", .arr [.str "name is required"])])))).result
        = .thrown (.apiError (IMGProcessingAPIError.ofJson (Json.obj
          [("type", .str "validation-error"), ("error", .str "Validation Error"),
           ("status", .num 422), ("errors", .arr [.str "name is required"])]))) :=
  C1_structured_error_surfaces_api_error ImageObject.Image
    (Json.obj
      [("type", .str "validation-error"), ("error", .str "Validation Error"),
       ("status", .num 422), ("errors", .arr [.str "name is required"])])
    ⟨"validation-error", "Validation Error", 422, none, some ["name is required"]⟩
    (by decide)

/-- C2 counterexample: an HTTP error whose response body is not decodable
(the claim's "undecodable response body" case) is neither emitted to the
operational log nor raised as the generic error — the body-parse
rejection itself escapes `request`'s catch block. -/
theorem C2_undecodable_http_error_counterexample :
    (IMGProcessingClient.request (T := ImageObject.Image)
        (.httpError .unparsable)).result = .thrown .jsonParseError ∧
    (IMGProcessingClient.request (T := ImageObject.Image)
        (.httpError .unparsable)).log = [] ∧
    Thrown.jsonParseError ≠ Thrown.genericError :=
  ⟨rfl, rfl, fun h => Thrown.noConfusion h⟩

/-- C2 amended: only a failure that is not an HTTP error at all — network
failure, timeout, or a 2xx body failing to decode — is logged once and
re-raised as the generic error distinct from `IMGProcessingAPIError`.  An
HTTP error whose body parses as JSON is always wrapped into an
`IMGProcessingAPIError` built from that JSON (no shape check), and an
HTTP error whose body does not parse raises the parse failure itself,
neither logged nor wrapped.  Both the `request` helper and the inlined
classification in `download` behave this way. -/
theorem C2_amended_unexpected_failures (T : Type) (c : IMGProcessingClient)
    (p : IMGProcessingClient.download.Params) :
    (∀ msg, IMGProcessingClient.request (T := T) (.otherError msg)
      = { result := .thrown .genericError, log := [msg] }) ∧
    (∀ j, IMGProcessingClient.request (T := T) (.httpError (.parsed j))
      = { result := .thrown (.apiError (IMGProcessingAPIError.ofJson j)),
          log := [] }) ∧
    (IMGProcessingClient.request (T := T) (.httpError .unparsable)
      = { result := .thrown .jsonParseError, log := [] }) ∧
    (∀ msg, (IMGProcessingClient.download c p (.otherError msg)).result
        = .thrown .genericError ∧
      (IMGProcessingClient.download c p (.otherError msg)).log = [msg]) ∧
    (∀ j, (IMGProcessingClient.download c p (.httpError (.parsed j))).result
        = .thrown (.apiError (IMGProcessingAPIError.ofJson j))) ∧
    ((IMGProcessingClient.download c p (.httpError .unparsable)).result
        = .thrown .jsonParseError ∧
      (IMGProcessingClient.download c p (.httpError .unparsable)).log = []) :=
  ⟨fun _ => rfl, fun _ => rfl, rfl, fun _ => ⟨rfl, rfl⟩, fun _ => rfl,
    ⟨rfl, rfl⟩⟩

/-- Name of the handle a method resolved with, when it resolved. -/
def resultName : ReqResult ImageObject → Option String
  | .ok h => some h.name
  | .thrown _ => none

/-- C3 counterexample: `publish` does not return the client method's
result.  On a successful publish response whose `name` differs from the
handle's, the handle method returns the original handle (old `name`, new
`url`) while the client method returns a freshly decoded `ImageObject`
carrying the response's `name`. -/
theorem C3_publish_returns_this_counterexample :
    resultName (ImageObject.publish
      { id := "image_a", name := "a", mutableUrl := none, width := 1,
        height := 1, format := .jpeg, size := 1, created_at := "t",
        client := { apiKey := "test_k" } }
      (.success
        { id := "image_a", name := "b", url := some "https://cdn.example/u",
          width := 1, height := 1, format := .jpeg, size := 1,
          created_at := "t" })).result = some "a" ∧
    resultName (IMGProcessingClient.publish { apiKey := "test_k" }
      { image_id := "image_a" }
      (.success
        { id := "image_a", name := "b", url := some "https://cdn.example/u",
          width := 1, height := 1, format := .jpeg, size := 1,
          created_at := "t" })).result = some "b" ∧
    (ImageObject.publish
      { id := "image_a", name := "a", mutableUrl := none, width := 1,
        height := 1, format := .jpeg, size := 1, created_at := "t",
        client := { apiKey := "test_k" } }
      (.success
        { id := "image_a", name := "b", url := some "https://cdn.example/u",
          width := 1, height := 1, format := .jpeg, size := 1,
          created_at := "t" })).result
      ≠ (IMGProcessingClient.publish { apiKey := "test_k" }
          { image_id := "image_a" }
          (.success
            { id := "image_a", name := "b",
              url := some "https://cdn.example/u", width := 1, height := 1,
              format := .jpeg, size := 1, created_at := "t" })).result :=
  ⟨rfl, rfl, fun heq => absurd (congrArg resultName heq) (by decide)⟩

/-- C3 amended (delete, blur and visualize are settled against the
spec-modelled client operations `deleteImage`, `blur` and `visualize`,
which are missing from src/): every instance method of an Image Handle
forwards to the corresponding API Client method injecting `this.id` as
`image_id`; every method except `publish`/`unpublish` returns the client
method's result unchanged, while `publish` and `unpublish` issue the same
client call but copy only the `url` of the client's result onto the
existing handle and return that same handle. -/
theorem C3_amended_handle_methods_forward :
    (∀ (h : ImageObject) o, ImageObject.delete h o
      = IMGProcessingClient.deleteImage h.client { image_id := h.id } o) ∧
    (∀ (h : ImageObject) o, ImageObject.download h o
      = IMGProcessingClient.download h.client { image_id := h.id } o) ∧
    (∀ (h : ImageObject) o, ImageObject.classify h o
      = IMGProcessingClient.classify h.client { image_id := h.id } o) ∧
    (∀ (h : ImageObject) p o, ImageObject.visualize h p o
      = IMGProcessingClient.visualize h.client
          { image_id := h.id, prompt := p.prompt, model := p.model } o) ∧
    (∀ (h : ImageObject) p o, ImageObject.blur h p o
      = IMGProcessingClient.blur h.client
          { image_id := h.id, sigma := p.sigma, name := p.name } o) ∧
    (∀ (h : ImageObject) p o, ImageObject.modulate h p o
      = IMGProcessingClient.modulate h.client
          { image_id := h.id, brightness := p.brightness,
            saturation := p.saturation, hue := p.hue,
            lightness := p.lightness, name := p.name } o) ∧
    (∀ (h : ImageObject) p o, ImageObject.removeBackground h p o
      = IMGProcessingClient.removeBackground h.client
          { image_id := h.id, name := p.name } o) ∧
    (∀ (h : ImageObject) p o, ImageObject.watermark h p o
      = IMGProcessingClient.watermark h.client
          { image_id := h.id, watermarks := p.watermarks, name := p.name } o) ∧
    (∀ (h : ImageObject) p o, ImageObject.convert h p o
      = IMGProcessingClient.convert h.client
          { image_id := h.id, format := p.format, quality := p.quality,
            name := p.name } o) ∧
    (∀ (h : ImageObject) p o, ImageObject.crop h p o
      = IMGProcessingClient.crop h.client
          { image_id := h.id, x1 := p.x1, y1 := p.y1, x2 := p.x2,
            y2 := p.y2, name := p.name } o) ∧
    (∀ (h : ImageObject) p o, ImageObject.mirror h p o
      = IMGProcessingClient.mirror h.client
          { image_id := h.id, mode := p.mode, name := p.name } o) ∧
    (∀ (h : ImageObject) p o, ImageObject.resize h p o
      = IMGProcessingClient.resize h.client
          { image_id := h.id, width := p.width, height := p.height,
            fit := p.fit, letterbox_color := p.letterbox_color,
            position := p.position, name := p.name } o) ∧
    (∀ (h : ImageObject) p o, ImageObject.rotate h p o
      = IMGProcessingClient.rotate h.client
          { image_id := h.id, angle := p.angle, unit := p.unit,
            background_color := p.background_color, name := p.name } o) ∧
    (∀ (h : ImageObject) o, (ImageObject.publish h o).request
      = (IMGProcessingClient.publish h.client { image_id := h.id } o).request) ∧
    (∀ (h : ImageObject) o, (ImageObject.publish h o).log
      = (IMGProcessingClient.publish h.client { image_id := h.id } o).log) ∧
    (∀ (h : ImageObject) r, (ImageObject.publish h (.success r)).result
      = .ok { h with mutableUrl := r.url }) ∧
    (∀ (h : ImageObject) j,
      (ImageObject.publish h (.httpError (.parsed j))).result
      = (IMGProcessingClient.publish h.client { image_id := h.id }
          (.httpError (.parsed j))).result) ∧
    (∀ (h : ImageObject), (ImageObject.publish h (.httpError .unparsable)).result
      = (IMGProcessingClient.publish h.client { image_id := h.id }
          (.httpError .unparsable)).result) ∧
    (∀ (h : ImageObject) msg, (ImageObject.publish h (.otherError msg)).result
      = (IMGProcessingClient.publish h.client { image_id := h.id }
          (.otherError msg)).result) ∧
    (∀ (h : ImageObject) o, (ImageObject.unpublish h o).request
      = (IMGProcessingClient.unpublish h.client { image_id := h.id } o).request) ∧
    (∀ (h : ImageObject) o, (ImageObject.unpublish h o).log
      = (IMGProcessingClient.unpublish h.client { image_id := h.id } o).log) ∧
    (∀ (h : ImageObject) r, (ImageObject.unpublish h (.success r)).result
      = .ok { h with mutableUrl := r.url }) ∧
    (∀ (h : ImageObject) j,
      (ImageObject.unpublish h (.httpError (.parsed j))).result
      = (IMGProcessingClient.unpublish h.client { image_id := h.id }
          (.httpError (.parsed j))).result) ∧
    (∀ (h : ImageObject), (ImageObject.unpublish h (.httpError .unparsable)).result
      = (IMGProcessingClient.unpublish h.client { image_id := h.id }
          (.httpError .unparsable)).result) ∧
    (∀ (h : ImageObject) msg, (ImageObject.unpublish h (.otherError msg)).result
      = (IMGProcessingClient.unpublish h.client { image_id := h.id }
          (.otherError msg)).result) := by
  refine ⟨?_, ?_, ?_, ?_, ?_, ?_, ?_, ?_, ?_, ?_, ?_, ?_, ?_, ?_, ?_, ?_,
    ?_, ?_, ?_, ?_, ?_, ?_, ?_, ?_, ?_⟩ <;> intros <;> rfl

/-- The `data` array a listing call resolved with, when it resolved. -/
def listData : ReqResult PaginatedImages → Option (List ImageObject.Image)
  | .ok l => some l.data
  | .thrown _ => none

/-- C4 counterexample: the elements of a listing's `data` are not bound
to the API Client that produced the listing.  Two distinct clients
decoding the same response produce listings with identical `data`
elements — the raw response records, carrying no client reference. -/
theorem C4_elements_unbound_counterexample :
    ({ apiKey := "test_one" } : IMGProcessingClient)
      ≠ ({ apiKey := "test_two" } : IMGProcessingClient) ∧
    listData (IMGProcessingClient.listImages { apiKey := "test_one" }
      { take := none, from_ := none }
      (.success
        { data := [{ id := "image_a", name := "a", url := none, width := 1,
                     height := 1, format := .jpeg, size := 1,
                     created_at := "t" }],
          links := { previous := none, next := none } })).result
      = some [{ id := "image_a", name := "a", url := none, width := 1,
                height := 1, format := .jpeg, size := 1, created_at := "t" }] ∧
    listData (IMGProcessingClient.listImages { apiKey := "test_two" }
      { take := none, from_ := none }
      (.success
        { data := [{ id := "image_a", name := "a", url := none, width := 1,
                     height := 1, format := .jpeg, size := 1,
                     created_at := "t" }],
          links := { previous := none, next := none } })).result
      = some [{ id := "image_a", name := "a", url := none, width := 1,
                height := 1, format := .jpeg, size := 1, created_at := "t" }] :=
  ⟨by decide, rfl, rfl⟩

/-- C4 amended: a listing produced by `listImages` or `goToPage` stores
the raw `ImageObject.Image` records of the response unchanged as its
`data` elements — plain attribute records, not client-bound Image
Handles — while the listing object itself (not its elements) keeps the
reference to the producing client, used only for page navigation. -/
theorem C4_amended_listing_elements_raw (c : IMGProcessingClient)
    (p : IMGProcessingClient.listImages.Params)
    (g : IMGProcessingClient.goToPage.Params)
    (page : PaginatedImages.PaginatedImage) :
    (IMGProcessingClient.listImages c p (.success page)).result
      = .ok { data := page.data, links := page.links, client := c } ∧
    (IMGProcessingClient.goToPage c g (.success page)).result
      = .ok { data := page.data, links := page.links, client := c } :=
  ⟨rfl, rfl⟩

/-- The JSON found under key `k` of the body of the issued request. -/
def bodyProp (req : HttpRequest) (k : String) : Option Json :=
  match req.body with
  | some b => getProp b k
  | none => none

/-- C5 (code bug): `rotate` drops the provided `background_color` and
`resize` drops the provided `letterbox_color` from the serialized JSON
body — the body carries only the destructured fields, contradicting the
declared and documented parameter sets. -/
theorem C5_rotate_resize_drop_declared_fields :
    (IMGProcessingClient.rotate { apiKey := "test_k" }
      { image_id := "image_abc", angle := 90, unit := none,
        background_color := some "red", name := none }
      (.otherError "unused")).request.body
      = some (Json.obj [("angle", .num 90)]) ∧
    bodyProp (IMGProcessingClient.rotate { apiKey := "test_k" }
      { image_id := "image_abc", angle := 90, unit := none,
        background_color := some "red", name := none }
      (.otherError "unused")).request "background_color" = none ∧
    (IMGProcessingClient.resize { apiKey := "test_k" }
      { image_id := "image_abc", width := 500, height := 500,
        fit := some .contain, letterbox_color := some "red",
        position := none, name := none }
      (.otherError "unused")).request.body
      = some (Json.obj
          [("width", .num 500), ("height", .num 500), ("fit", .str "contain")]) ∧
    bodyProp (IMGProcessingClient.resize { apiKey := "test_k" }
      { image_id := "image_abc", width := 500, height := 500,
        fit := some .contain, letterbox_color := some "red",
        position := none, name := none }
      (.otherError "unused")).request "letterbox_color" = none :=
  ⟨rfl, rfl, rfl, rfl⟩

/-- C6: a successful `publish` followed by a successful `unpublish` on
the same handle (the embedding returns the updated input handle, i.e. the
same object with only the mutable URL slot written) restores `url` to
`null` when the unpublish response carries a null `url`, and leaves the
id and every field other than `url` unchanged across both calls. -/
theorem C6_publish_unpublish_roundtrip (h : ImageObject)
    (r1 r2 : ImageObject.Image) (hr : r2.url = none) :
    ∃ h1 h2,
      (ImageObject.publish h (.success r1)).result = .ok h1 ∧
      (ImageObject.unpublish h1 (.success r2)).result = .ok h2 ∧
      h1 = { h with mutableUrl := r1.url } ∧
      h2 = { h with mutableUrl := none } ∧
      h1.id = h.id ∧ h2.id = h.id ∧ h2.url = none ∧
      h2.name = h.name ∧ h2.width = h.width ∧ h2.height = h.height ∧
      h2.format = h.format ∧ h2.size = h.size ∧
      h2.created_at = h.created_at ∧ h2.client = h.client := by
  refine ⟨{ h with mutableUrl := r1.url }, { h with mutableUrl := none },
    rfl, ?_, rfl, rfl, rfl, rfl, rfl, rfl, rfl, rfl, rfl, rfl, rfl, rfl⟩
  have hstep : (ImageObject.unpublish { h with mutableUrl := r1.url }
      (.success r2)).result
      = .ok { h with mutableUrl := r2.url } := rfl
  rw [hstep, hr]

/-- C6 witness: the round trip evaluated on a concrete handle, a publish
response carrying a public URL, and an unpublish response carrying a null
URL. -/
theorem C6_publish_unpublish_roundtrip_witness :
    ∃ h1 h2,
      (ImageObject.publish
        { id := "image_a", name := "a", mutableUrl := none, width := 2,
          height := 3, format := .webp, size := 9, created_at := "t",
          client := { apiKey := "test_k" } }
        (.success
          { id := "image_a", name := "a",
            url := some "https://cdn.example/u", width := 2, height := 3,
            format := .webp, size := 9, created_at := "t" })).result = .ok h1 ∧
      (ImageObject.unpublish h1
        (.success
          { id := "image_a", name := "a", url := none, width := 2,
            height := 3, format := .webp, size := 9,
            created_at := "t" })).result = .ok h2 ∧
      h1 = { id := "image_a", name := "a",
             mutableUrl := some "https://cdn.example/u", width := 2,
             height := 3, format := .webp, size := 9, created_at := "t",
             client := { apiKey := "test_k" } } ∧
      h2 = { id := "image_a", name := "a", mutableUrl := none, width := 2,
             height := 3, format := .webp, size := 9, created_at := "t",
             client := { apiKey := "test_k" } } ∧
      h1.id = "image_a" ∧ h2.id = "image_a" ∧ h2.url = none ∧
      h2.name = "a" ∧ h2.width = 2 ∧ h2.height = 3 ∧
      h2.format = .webp ∧ h2.size = 9 ∧
      h2.created_at = "t" ∧ h2.client = { apiKey := "test_k" } :=
  C6_publish_unpublish_roundtrip
    { id := "image_a", name := "a", mutableUrl := none, width := 2,
      height := 3, format := .webp, size := 9, created_at := "t",
      client := { apiKey := "test_k" } }
    { id := "image_a", name := "a", url := some "https://cdn.example/u",
      width := 2, height := 3, format := .webp, size := 9, created_at := "t" }
    { id := "image_a", name := "a", url := none, width := 2, height := 3,
      format := .webp, size := 9, created_at := "t" }
    rfl

/-- C7: construction with a key bearing neither recognized environment
prefix throws the configuration error; construction with a `test_` or
`live_` key succeeds; in either case no HTTP request is issued. -/
theorem C7_apikey_prefix_validation (k : String) :
    (strStartsWith k "test_" = false → strStartsWith k "live_" = false →
      (IMGProcessingClient.create k).outcome = .error invalidApiKeyMessage) ∧
    (strStartsWith k "test_" = true ∨ strStartsWith k "live_" = true →
      (IMGProcessingClient.create k).outcome = .ok { apiKey := k }) ∧
    (IMGProcessingClient.create k).requests = [] := by
  refine ⟨?_, ?_, ?_⟩
  · intro h1 h2
    simp [IMGProcessingClient.create, h1, h2]
  · intro hor
    rcases hor with h | h <;> simp [IMGProcessingClient.create, h]
  · unfold IMGProcessingClient.create
    split <;> rfl

/-- C7 witness: a key with an unrecognized prefix is rejected; a
`test_`-prefixed key yields a configured client; neither path issues a
request. -/
theorem C7_apikey_prefix_validation_witness :
    (IMGProcessingClient.create "bogus_key").outcome
      = .error invalidApiKeyMessage ∧
    (IMGProcessingClient.create "test_abc").outcome
      = .ok { apiKey := "test_abc" } ∧
    (IMGProcessingClient.create "bogus_key").requests = [] ∧
    (IMGProcessingClient.create "test_abc").requests = [] :=
  ⟨(C7_apikey_prefix_validation "bogus_key").1 (by decide) (by decide),
   (C7_apikey_prefix_validation "test_abc").2.1 (Or.inl (by decide)),
   (C7_apikey_prefix_validation "bogus_key").2.2,
   (C7_apikey_prefix_validation "test_abc").2.2⟩

/-- C8 counterexample: a listing whose `next` link is present but equal
to the empty string resolves to "no page" without delegating to
`goToPage` — the source tests JavaScript falsiness (`!this.links.next`),
not nullness. -/
theorem C8_empty_link_counterexample :
    ({ data := [], links := { previous := none, next := some "" },
       client := { apiKey := "test_k" } } : PaginatedImages).links.next
      = some "" ∧
    ({ data := [], links := { previous := none, next := some "" },
       client := { apiKey := "test_k" } } : PaginatedImages).links.next
      ≠ none ∧
    PaginatedImages.next
      { data := [], links := { previous := none, next := some "" },
        client := { apiKey := "test_k" } }
      (.otherError "unused") = .noPage :=
  ⟨rfl, by decide, rfl⟩

/-- C8 amended: `next()` (resp. `previous()`) resolves immediately to
"no further page" without issuing any network call and without touching
the listing whenever the corresponding link is null **or the empty
string** (JavaScript falsiness); for a nonempty link it delegates to the
client's `goToPage` with that link, which returns a brand-new listing. -/
theorem C8_nav_falsy_links (l : PaginatedImages)
    (o : TransportOutcome PaginatedImages.PaginatedImage) :
    (l.links.next = none → PaginatedImages.next l o = .noPage) ∧
    (l.links.next = some "" → PaginatedImages.next l o = .noPage) ∧
    (∀ s, l.links.next = some s → s ≠ "" →
      PaginatedImages.next l o
        = .page (IMGProcessingClient.goToPage l.client { page := s } o)) ∧
    (l.links.previous = none → PaginatedImages.previous l o = .noPage) ∧
    (l.links.previous = some "" → PaginatedImages.previous l o = .noPage) ∧
    (∀ s, l.links.previous = some s → s ≠ "" →
      PaginatedImages.previous l o
        = .page (IMGProcessingClient.goToPage l.client { page := s } o)) := by
  refine ⟨?_, ?_, ?_, ?_, ?_, ?_⟩
  · intro hnone; simp [PaginatedImages.next, hnone]
  · intro hempty; simp [PaginatedImages.next, hempty]
  · intro s hs hne; simp [PaginatedImages.next, hs, hne]
  · intro hnone; simp [PaginatedImages.previous, hnone]
  · intro hempty; simp [PaginatedImages.previous, hempty]
  · intro s hs hne; simp [PaginatedImages.previous, hs, hne]

/-- C8 witness: with a null `next` link navigation resolves to "no page";
with a nonempty `next` link it delegates to `goToPage` with that link. -/
theorem C8_nav_falsy_links_witness :
    PaginatedImages.next
      { data := [], links := { previous := none, next := none },
        client := { apiKey := "test_k" } }
      (.otherError "unused") = .noPage ∧
    PaginatedImages.next
      { data := [],
        links := { previous := none,
                   next := some "https://api.img-processing.com/v1/images?from=x" },
        client := { apiKey := "test_k" } }
      (.otherError "unused")
      = .page (IMGProcessingClient.goToPage { apiKey := "test_k" }
          { page := "https://api.img-processing.com/v1/images?from=x" }
          (.otherError "unused")) :=
  ⟨(C8_nav_falsy_links
      { data := [], links := { previous := none, next := none },
        client := { apiKey := "test_k" } }
      (.otherError "unused")).1 rfl,
   (C8_nav_falsy_links
      { data := [],
        links := { previous := none,
                   next := some "https://api.img-processing.com/v1/images?from=x" },
        client := { apiKey := "test_k" } }
      (.otherError "unused")).2.2.1
      "https://api.img-processing.com/v1/images?from=x" rfl (by decide)⟩

/-- Format of the handle a method resolved with, when it resolved. -/
def formatOfResult : ReqResult ImageObject → Option ImageObject.SupportedFormat
  | .ok h => some h.format
  | .thrown _ => none

/-- C9 counterexample: the handle returned by `removeBackground` carries
whatever format the server response records — here `jpeg`, not the
lossless `png`; likewise `convert` to `png` yields a `webp` handle when
the response says `webp`.  The `png`/`Format` return types in the source
are unchecked casts. -/
theorem C9_format_from_response_counterexample :
    formatOfResult (IMGProcessingClient.removeBackground { apiKey := "test_k" }
      { image_id := "image_a", name := none }
      (.success
        { id := "image_b", name := "a", url := none, width := 1, height := 1,
          format := .jpeg, size := 1, created_at := "t" })).result
      = some .jpeg ∧
    ImageObject.SupportedFormat.jpeg ≠ ImageObject.SupportedFormat.png ∧
    formatOfResult (IMGProcessingClient.convert { apiKey := "test_k" }
      { image_id := "image_a", format := .png, quality := none, name := none }
      (.success
        { id := "image_b", name := "a", url := none, width := 1, height := 1,
          format := .webp, size := 1, created_at := "t" })).result
      = some .webp ∧
    ImageObject.SupportedFormat.webp ≠ ImageObject.SupportedFormat.png :=
  ⟨rfl, by decide, rfl, by decide⟩

/-- C9 amended: at runtime the `format` field of the handle returned by
`removeBackground` (and by `convert`) equals the `format` field of the
server's response record — it is `png` (resp. the requested target
format) exactly when the response says so; the narrowing in the source's
return types is static typing only. -/
theorem C9_amended_format_equals_response (c : IMGProcessingClient)
    (p : IMGProcessingClient.removeBackground.Params)
    (q : IMGProcessingClient.convert.Params) (img : ImageObject.Image) :
    formatOfResult (IMGProcessingClient.removeBackground c p
      (.success img)).result = some img.format ∧
    formatOfResult (IMGProcessingClient.convert c q
      (.success img)).result = some img.format :=
  ⟨rfl, rfl⟩

/-- C10: the structured failure thrown by the `request` helper is an
`IMGProcessingAPIError` — an instance of the plain class that does not
extend `Error` and carries only the five Error-shape fields — exactly
when the transport outcome was an HTTP error with a JSON-parseable body,
and every other failure it raises is an instance of the native `Error`
class; hence `instanceof Error` on a caught value distinguishes the two
failure kinds. -/
theorem C10_instanceof_error_distinguishes (T : Type)
    (o : TransportOutcome T) (t : Thrown)
    (hthrow : (IMGProcessingClient.request o).result = .thrown t) :
    ((∃ e, t = .apiError e) ↔ (∃ j, o = .httpError (.parsed j))) ∧
    (instanceofNativeError t = false ↔ ∃ e, t = .apiError e) := by
  cases o with
  | success v => exact absurd hthrow (by simp [IMGProcessingClient.request])
  | httpError b =>
    cases b with
    | parsed j =>
      have ht : t = .apiError (IMGProcessingAPIError.ofJson j) := by
        simpa [IMGProcessingClient.request] using hthrow.symm
      subst ht
      exact ⟨⟨fun _ => ⟨j, rfl⟩, fun _ => ⟨_, rfl⟩⟩,
        ⟨fun _ => ⟨_, rfl⟩, fun _ => rfl⟩⟩
    | unparsable =>
      have ht : t = .jsonParseError := by
        simpa [IMGProcessingClient.request] using hthrow.symm
      subst ht
      constructor
      · constructor
        · rintro ⟨e, he⟩; exact absurd he (by simp)
        · rintro ⟨j, hj⟩; exact absurd hj (by simp)
      · constructor
        · intro hfalse; exact absurd hfalse (by simp [instanceofNativeError])
        · rintro ⟨e, he⟩; exact absurd he (by simp)
  | otherError msg =>
    have ht : t = .genericError := by
      simpa [IMGProcessingClient.request] using hthrow.symm
    subst ht
    constructor
    · constructor
      · rintro ⟨e, he⟩; exact absurd he (by simp)
      · rintro ⟨j, hj⟩; exact absurd hj (by simp)
    · constructor
      · intro hfalse; exact absurd hfalse (by simp [instanceofNativeError])
      · rintro ⟨e, he⟩; exact absurd he (by simp)

/-- C10 witness: instantiated on a network failure, whose generic raise
is a native `Error` and not an `IMGProcessingAPIError`. -/
theorem C10_instanceof_error_distinguishes_witness :
    ((∃ e, Thrown.genericError = Thrown.apiError e)
      ↔ (∃ j, (TransportOutcome.otherError (T := ImageObject.Image) "boom")
          = .httpError (.parsed j))) ∧
    (instanceofNativeError .genericError = false
      ↔ ∃ e, Thrown.genericError = Thrown.apiError e) :=
  C10_instanceof_error_distinguishes ImageObject.Image
    (.otherError "boom") .genericError rfl
